import Mathlib

/-!
Shallow embedding of the verification subsystem of `cargo-stylus`
(crate `check`, file `src/check/src/verify.rs`, with the configuration
structures of `src/check/src/lib.rs`).

Bytes are modelled as `Nat` (values < 256 where relevant), byte strings as
`List Nat`.  The external collaborators of `verify` (the RPC provider, the
`cargo clean` subprocess, the `check` stage, the compiler, the project
hasher and the compressor) are modelled as a `World` record of
result-returning functions; `verify` threads their results exactly as the
Rust source does and additionally records the sequence of external calls
it makes as a trace of `Effect`s, so that ordering and frame properties
can be stated.
-/

/-- Modelled from the spec: `project::OptLevel` is not under `src/`;
the spec only says "optimization level: enum", so an enum with a
distinguished default variant and at least one other variant is used. -/
inductive OptLevel where
  | defaultLevel
  | sizeAggressive
deriving DecidableEq, Repr

/-- Modelled from the spec: `OptLevel::default()` of the missing
`project.rs`, the distinguished default variant. -/
def OptLevel.default : OptLevel := OptLevel.defaultLevel

/-- `project::BuildConfig` (fields as used by `verify.rs` lines 56-59). -/
structure BuildConfig where
  opt_level : OptLevel
  stable : Bool
deriving DecidableEq, Repr

/-- `CommonConfig` of `src/check/src/lib.rs` (the fields `verify` reads). -/
structure CommonConfig where
  endpoint : String
  rust_stable : Bool
  verbose : Bool
  source_files_for_project_hash : List String
deriving DecidableEq, Repr

/-- `VerifyConfig` of `src/check/src/lib.rs`. -/
structure VerifyConfig where
  common_cfg : CommonConfig
  deployment_tx : String
deriving DecidableEq, Repr

/-- `CheckConfig` of `src/check/src/lib.rs` (the fields `verify` sets;
the program address is kept abstract as a number). -/
structure CheckConfig where
  common_cfg : CommonConfig
  wasm_file : Option String
  program_address : Option Nat
deriving DecidableEq, Repr

/-- A fetched transaction: the one field of the remote transaction that
`verify` consults is its `input` bytes (`result.input`, lines 66-91). -/
structure Tx where
  input : List Nat
deriving DecidableEq, Repr

/-- Value of a single hexadecimal digit character, if it is one. -/
def hexDigitVal (c : Char) : Option Nat :=
  if '0' ≤ c ∧ c ≤ '9' then some (c.toNat - '0'.toNat)
  else if 'a' ≤ c ∧ c ≤ 'f' then some (c.toNat - 'a'.toNat + 10)
  else if 'A' ≤ c ∧ c ≤ 'F' then some (c.toNat - 'A'.toNat + 10)
  else none

/-- Decode a list of hex digit characters, two per byte; fails on an odd
count or a non-hex character. -/
def hexDecode : List Char → Option (List Nat)
  | [] => some []
  | [_] => none
  | c1 :: c2 :: rest =>
    match hexDigitVal c1, hexDigitVal c2, hexDecode rest with
    | some h, some l, some tail => some ((h * 16 + l) :: tail)
    | _, _, _ => none

/-- Modelled from the spec: `cargo_stylus_util::text::decode0x` is not
under `src/`; the spec says hashes are "hex-encoded with a leading
marker", so the leading `0x` marker is dropped when present and the rest
is hex-decoded. -/
def decode0x (s : String) : Option (List Nat) :=
  let cs := s.toList
  let cs := if cs.take 2 = ['0', 'x'] then cs.drop 2 else cs
  hexDecode cs

/-- Big-endian encoding of `n` into exactly `w` bytes (the length field
of the deployment prelude is a 32-byte big-endian word). -/
def beBytes (w n : Nat) : List Nat :=
  (List.range w).map (fun i => n / 256 ^ (w - 1 - i) % 256)

/-- Modelled from the spec: the prelude of the deployment calldata.
`deploy.rs` is not under `src/`; per the spec (4.5) the prelude is a
constant bytecode template whose only non-constant part is a
length-dependent immediate field, instructing the execution engine to
install the trailing payload as the runtime code.  It is modelled as the
EVM sequence PUSH32 len, PUSH1 offset, PUSH1 0, CODECOPY, PUSH1 0,
RETURN, whose byte length is the constant 41. -/
def preludeBytes (len : Nat) : List Nat :=
  [0x7f] ++ beBytes 32 len ++ [0x60, 0x2a, 0x60, 0x00, 0x39, 0x60, 0x00, 0xf3]

/-- The byte length of the deployment prelude (constant: independent of
the encoded payload length). -/
def PRELUDE_LEN : Nat := 41

/-- Modelled from the spec: `deploy::program_deployment_calldata`
(called at `verify.rs` line 65) is not under `src/`; per the spec (4.5,
Construct), the deployment calldata is `prelude(len(payload)) ++
payload`. -/
def program_deployment_calldata (code : List Nat) : List Nat :=
  preludeBytes code.length ++ code

/-- Modelled from the spec: `deploy::extract_program_evm_deployment_prelude`
(called at `verify.rs` lines 69-70) is not under `src/`; per the spec
(4.5, Extract) it splits a blob at the prelude's length-derivable
boundary, never indexing past the end; its call sites in `verify.rs`
use the result as plain bytes. -/
def extract_program_evm_deployment_prelude (blob : List Nat) : List Nat :=
  blob.take PRELUDE_LEN

/-- Modelled from the spec: `deploy::extract_compressed_wasm` (called at
`verify.rs` line 91) is not under `src/`; the payload half of the split
performed by 4.5's Extract. -/
def extract_compressed_wasm (blob : List Nat) : List Nat :=
  blob.drop PRELUDE_LEN

/-- The outcome `verify` reports through its diagnostics
(`verify.rs` lines 66-93): a match, a prelude mismatch (carrying the two
preludes it prints), or a compressed-bytecode (body) mismatch. -/
inductive VerificationOutcome where
  | Matched
  | MismatchedPrelude (txPrelude reconstructedPrelude : List Nat)
  | MismatchedBody
deriving DecidableEq, Repr

/-- The comparison stage of `verify` (`verify.rs` lines 66-93): exact
byte equality of the locally constructed calldata and the remote input;
on inequality both sides are re-split and the mismatch is attributed to
the prelude when the extracted preludes differ, otherwise to the body. -/
def compareStage (deployment_data remote_input : List Nat) : VerificationOutcome :=
  if deployment_data = remote_input then
    VerificationOutcome.Matched
  else
    let tx_prelude := extract_program_evm_deployment_prelude remote_input
    let reconstructed_prelude := extract_program_evm_deployment_prelude deployment_data
    if tx_prelude ≠ reconstructed_prelude then
      VerificationOutcome.MismatchedPrelude tx_prelude reconstructed_prelude
    else
      VerificationOutcome.MismatchedBody

/-- The external calls `verify` performs, in the order it performs them,
plus markers for its two pure terminal stages (calldata construction and
comparison) so stage ordering can be stated. -/
inductive Effect where
  | newProvider (endpoint : String)
  | rpcGetTransaction (hash : List Nat)
  | runCargoClean
  | runCheck (cfg : CheckConfig)
  | buildDylibCall (cfg : BuildConfig)
  | hashFilesCall (files : List String) (cfg : BuildConfig)
  | compressWasmCall (wasm_file : String) (project_hash : List Nat)
  | constructCalldata
  | compareCalldata
deriving DecidableEq, Repr

/-- Whether an effect writes outside the process: `cargo clean` removes
the build directory and the compiler invocation writes build artifacts;
every other step only reads. -/
def Effect.isWrite : Effect → Bool
  | Effect.runCargoClean => true
  | Effect.buildDylibCall _ => true
  | _ => false

/-- Whether an effect is the remote-transaction network read. -/
def Effect.isFetch : Effect → Bool
  | Effect.rpcGetTransaction _ => true
  | _ => false

/-- Whether an effect is the compiler invocation. -/
def Effect.isCompile : Effect → Bool
  | Effect.buildDylibCall _ => true
  | _ => false

/-- Whether an effect is the project-hash computation. -/
def Effect.isHash : Effect → Bool
  | Effect.hashFilesCall _ _ => true
  | _ => false

/-- Whether an effect is the compression stage. -/
def Effect.isCompress : Effect → Bool
  | Effect.compressWasmCall _ _ => true
  | _ => false

/-- The failure modes of `verify` (each `bail!` / `map_err` site of
`verify.rs`, tagged with the stage that produced it). -/
inductive VerifyError where
  | providerError (msg : String)
  | invalidHexError (msg : String)
  | invalidHash
  | rpcError (msg : String)
  | notFound
  | cleanSpawnError (msg : String)
  | cleanFailed
  | checkError (msg : String)
  | buildError (msg : String)
  | hashError (msg : String)
  | compressError (msg : String)
deriving DecidableEq, Repr

/-- Results of the external collaborators a run of `verify` consumes.
Each field returns what the corresponding call site receives:
`getTransaction` the RPC lookup (transport error / absent / present),
`cargoClean` the subprocess result (spawn error / exit-status success
flag), `checkRun` the `check::check` stage, `buildDylib` the compiler
(producing a wasm file path), `hashFiles` the project hasher and
`compressWasm` the compressor (producing the init code bytes). -/
structure World where
  provider : String → Except String Unit
  getTransaction : List Nat → Except String (Option Tx)
  cargoClean : Except String Bool
  checkRun : CheckConfig → Except String Unit
  buildDylib : BuildConfig → Except String String
  hashFiles : List String → BuildConfig → Except String (List Nat)
  compressWasm : String → List Nat → Except String (List Nat)

/-- What a completed run exposes: the locally reconstructed calldata,
the remote transaction input it compared against, and the reported
outcome.  The Rust function returns `Ok(())` in every compare branch;
the outcome is what its diagnostics print. -/
structure VerifySuccess where
  deployment_data : List Nat
  remote_input : List Nat
  outcome : VerificationOutcome
deriving DecidableEq, Repr

/-- A run: the trace of external calls made (in order) and the result. -/
structure VerifyRun where
  trace : List Effect
  result : Except VerifyError VerifySuccess
deriving Repr

/-- `verify` of `src/check/src/verify.rs` lines 27-95, stage for stage:
provider construction, hash decoding and the 32-byte check, the remote
transaction fetch, `cargo clean`, the `check` stage, the local build
with `OptLevel::default()` and the configured channel, the project hash,
compression, calldata construction and the comparison. -/
def verify (cfg : VerifyConfig) (w : World) : VerifyRun :=
  match w.provider cfg.common_cfg.endpoint with
  | Except.error e =>
    ⟨[Effect.newProvider cfg.common_cfg.endpoint], Except.error (VerifyError.providerError e)⟩
  | Except.ok _ =>
  match decode0x cfg.deployment_tx with
  | none =>
    ⟨[Effect.newProvider cfg.common_cfg.endpoint],
      Except.error (VerifyError.invalidHexError cfg.deployment_tx)⟩
  | some hash =>
  if hash.length ≠ 32 then
    ⟨[Effect.newProvider cfg.common_cfg.endpoint], Except.error VerifyError.invalidHash⟩
  else
  match w.getTransaction hash with
  | Except.error e =>
    ⟨[Effect.newProvider cfg.common_cfg.endpoint, Effect.rpcGetTransaction hash],
      Except.error (VerifyError.rpcError e)⟩
  | Except.ok none =>
    ⟨[Effect.newProvider cfg.common_cfg.endpoint, Effect.rpcGetTransaction hash],
      Except.error VerifyError.notFound⟩
  | Except.ok (some result) =>
  match w.cargoClean with
  | Except.error e =>
    ⟨[Effect.newProvider cfg.common_cfg.endpoint, Effect.rpcGetTransaction hash,
        Effect.runCargoClean],
      Except.error (VerifyError.cleanSpawnError e)⟩
  | Except.ok false =>
    ⟨[Effect.newProvider cfg.common_cfg.endpoint, Effect.rpcGetTransaction hash,
        Effect.runCargoClean],
      Except.error VerifyError.cleanFailed⟩
  | Except.ok true =>
  let check_cfg : CheckConfig := ⟨cfg.common_cfg, none, none⟩
  match w.checkRun check_cfg with
  | Except.error e =>
    ⟨[Effect.newProvider cfg.common_cfg.endpoint, Effect.rpcGetTransaction hash,
        Effect.runCargoClean, Effect.runCheck check_cfg],
      Except.error (VerifyError.checkError e)⟩
  | Except.ok _ =>
  let build_cfg : BuildConfig := ⟨OptLevel.default, cfg.common_cfg.rust_stable⟩
  match w.buildDylib build_cfg with
  | Except.error e =>
    ⟨[Effect.newProvider cfg.common_cfg.endpoint, Effect.rpcGetTransaction hash,
        Effect.runCargoClean, Effect.runCheck check_cfg, Effect.buildDylibCall build_cfg],
      Except.error (VerifyError.buildError e)⟩
  | Except.ok wasm_file =>
  match w.hashFiles cfg.common_cfg.source_files_for_project_hash build_cfg with
  | Except.error e =>
    ⟨[Effect.newProvider cfg.common_cfg.endpoint, Effect.rpcGetTransaction hash,
        Effect.runCargoClean, Effect.runCheck check_cfg, Effect.buildDylibCall build_cfg,
        Effect.hashFilesCall cfg.common_cfg.source_files_for_project_hash build_cfg],
      Except.error (VerifyError.hashError e)⟩
  | Except.ok project_hash =>
  match w.compressWasm wasm_file project_hash with
  | Except.error e =>
    ⟨[Effect.newProvider cfg.common_cfg.endpoint, Effect.rpcGetTransaction hash,
        Effect.runCargoClean, Effect.runCheck check_cfg, Effect.buildDylibCall build_cfg,
        Effect.hashFilesCall cfg.common_cfg.source_files_for_project_hash build_cfg,
        Effect.compressWasmCall wasm_file project_hash],
      Except.error (VerifyError.compressError e)⟩
  | Except.ok init_code =>
  let deployment_data := program_deployment_calldata init_code
  ⟨[Effect.newProvider cfg.common_cfg.endpoint, Effect.rpcGetTransaction hash,
      Effect.runCargoClean, Effect.runCheck check_cfg, Effect.buildDylibCall build_cfg,
      Effect.hashFilesCall cfg.common_cfg.source_files_for_project_hash build_cfg,
      Effect.compressWasmCall wasm_file project_hash, Effect.constructCalldata,
      Effect.compareCalldata],
    Except.ok ⟨deployment_data, result.input, compareStage deployment_data result.input⟩⟩

/-- Decidable equality of `Except` values, so that concrete runs can be
evaluated inside decidable statements. -/
instance exceptDecEq {ε α : Type} [DecidableEq ε] [DecidableEq α] :
    DecidableEq (Except ε α) := fun x y => by
  cases x <;> cases y
  case error.error a b =>
    exact if h : a = b then isTrue (by rw [h]) else isFalse (by intro hc; injection hc; exact h (by assumption))
  case error.ok a b => exact isFalse (fun hc => Except.noConfusion hc)
  case ok.error a b => exact isFalse (fun hc => Except.noConfusion hc)
  case ok.ok a b =>
    exact if h : a = b then isTrue (by rw [h]) else isFalse (by intro hc; injection hc; exact h (by assumption))

/-! Sample configurations and collaborator worlds used to instantiate the
theorems on concrete runs. -/

/-- A sample configuration with a well-formed 32-byte transaction hash. -/
def cfg0 : VerifyConfig :=
  ⟨⟨"http://localhost:8547", false, false, ["src/main.rs"]⟩,
    "0x0000000000000000000000000000000000000000000000000000000000000001"⟩

/-- An all-successful collaborator world whose remote transaction input
does not equal the local reconstruction. -/
def W0 : World :=
  ⟨fun _ => Except.ok (), fun _ => Except.ok (some ⟨[9, 9]⟩),
    Except.ok true, fun _ => Except.ok (), fun _ => Except.ok "out.wasm",
    fun _ _ => Except.ok (List.replicate 32 0), fun _ _ => Except.ok [1, 2, 3]⟩

example : decode0x "0xdeadbeef" = some [0xde, 0xad, 0xbe, 0xef] := by decide

example : (verify cfg0 W0).result =
    Except.ok ⟨program_deployment_calldata [1, 2, 3], [9, 9],
      VerificationOutcome.MismatchedPrelude
        (extract_program_evm_deployment_prelude [9, 9])
        (extract_program_evm_deployment_prelude (program_deployment_calldata [1, 2, 3]))⟩ := by
  decide

/-- Inversion on a successful run: a run that returns `Ok` determines
the stage results it consumed and the shape of its success value and of
its trace. -/
theorem verify_ok_inv (cfg : VerifyConfig) (w : World) (s : VerifySuccess)
    (h : (verify cfg w).result = Except.ok s) :
    ∃ hash tx wasm_file project_hash init_code,
      decode0x cfg.deployment_tx = some hash ∧
      hash.length = 32 ∧
      w.getTransaction hash = Except.ok (some tx) ∧
      w.buildDylib ⟨OptLevel.default, cfg.common_cfg.rust_stable⟩ = Except.ok wasm_file ∧
      w.hashFiles cfg.common_cfg.source_files_for_project_hash
          ⟨OptLevel.default, cfg.common_cfg.rust_stable⟩ = Except.ok project_hash ∧
      w.compressWasm wasm_file project_hash = Except.ok init_code ∧
      s = ⟨program_deployment_calldata init_code, tx.input,
            compareStage (program_deployment_calldata init_code) tx.input⟩ ∧
      (verify cfg w).trace =
        [Effect.newProvider cfg.common_cfg.endpoint, Effect.rpcGetTransaction hash,
          Effect.runCargoClean, Effect.runCheck ⟨cfg.common_cfg, none, none⟩,
          Effect.buildDylibCall ⟨OptLevel.default, cfg.common_cfg.rust_stable⟩,
          Effect.hashFilesCall cfg.common_cfg.source_files_for_project_hash
            ⟨OptLevel.default, cfg.common_cfg.rust_stable⟩,
          Effect.compressWasmCall wasm_file project_hash, Effect.constructCalldata,
          Effect.compareCalldata] := by
  unfold verify at h ⊢
  rcases hp : w.provider cfg.common_cfg.endpoint with e | u
  · simp [hp] at h
  simp only [hp] at h ⊢
  rcases hd : decode0x cfg.deployment_tx with _ | hash
  · simp [hd] at h
  simp only [hd] at h ⊢
  by_cases hlen : hash.length ≠ 32
  · rw [if_pos hlen] at h; simp at h
  rw [if_neg hlen] at h ⊢
  rcases ht : w.getTransaction hash with e | tx?
  · simp [ht] at h
  rcases tx? with _ | tx
  · simp [ht] at h
  simp only [ht] at h ⊢
  rcases hc : w.cargoClean with e | st
  · simp [hc] at h
  rcases st with _ | _
  · simp [hc] at h
  simp only [hc] at h ⊢
  rcases hk : w.checkRun ⟨cfg.common_cfg, none, none⟩ with e | u2
  · simp [hk] at h
  simp only [hk] at h ⊢
  rcases hb : w.buildDylib ⟨OptLevel.default, cfg.common_cfg.rust_stable⟩ with e | wasm_file
  · simp [hb] at h
  simp only [hb] at h ⊢
  rcases hh : w.hashFiles cfg.common_cfg.source_files_for_project_hash
      ⟨OptLevel.default, cfg.common_cfg.rust_stable⟩ with e | project_hash
  · simp [hh] at h
  simp only [hh] at h ⊢
  rcases hz : w.compressWasm wasm_file project_hash with e | init_code
  · simp [hz] at h
  simp only [hz] at h ⊢
  simp only [Except.ok.injEq] at h
  refine ⟨hash, tx, wasm_file, project_hash, init_code, ?_, ?_, ?_, ?_, ?_, ?_, ?_, ?_⟩ <;>
    first
      | rfl
      | exact not_not.mp hlen
      | exact hd
      | exact ht
      | exact hb
      | exact hh
      | exact hz
      | exact h.symm

/-- Splitting a list at `n` and recombining: two lists equal on both
halves are equal. -/
theorem eq_of_take_drop_eq (n : Nat) (a b : List Nat)
    (h1 : a.take n = b.take n) (h2 : a.drop n = b.drop n) : a = b := by
  rw [← List.take_append_drop n a, h1, h2, List.take_append_drop]

/-- The prelude's byte length is the constant `PRELUDE_LEN`, independent
of the encoded payload length. -/
theorem preludeBytes_length (n : Nat) : (preludeBytes n).length = PRELUDE_LEN := by
  simp [preludeBytes, beBytes, PRELUDE_LEN]

/-- C1: a verification run in which the remote transaction's input
bytes are byte-for-byte equal to the locally reconstructed deployment
calldata reports the outcome `Matched`. -/
theorem C1_matched_on_equal_input (cfg : VerifyConfig) (w : World) (s : VerifySuccess)
    (h : (verify cfg w).result = Except.ok s)
    (heq : s.remote_input = s.deployment_data) :
    s.outcome = VerificationOutcome.Matched := by
  obtain ⟨hash, tx, wf, ph, ic, _, _, _, _, _, _, hs, _⟩ := verify_ok_inv cfg w s h
  subst hs
  simp only at heq ⊢
  unfold compareStage
  rw [if_pos heq.symm]

/-- A collaborator world whose remote transaction input equals the local
reconstruction of `cfg0`'s project. -/
def Wmatch : World :=
  ⟨fun _ => Except.ok (), fun _ => Except.ok (some ⟨program_deployment_calldata [1, 2, 3]⟩),
    Except.ok true, fun _ => Except.ok (), fun _ => Except.ok "out.wasm",
    fun _ _ => Except.ok (List.replicate 32 0), fun _ _ => Except.ok [1, 2, 3]⟩

/-- The success value of the matched run of `cfg0` against `Wmatch`. -/
def sMatch : VerifySuccess :=
  ⟨program_deployment_calldata [1, 2, 3], program_deployment_calldata [1, 2, 3],
    VerificationOutcome.Matched⟩

/-- Witness for C1 on a concrete matched run. -/
theorem C1_matched_on_equal_input_witness :
    (verify cfg0 Wmatch).result = Except.ok sMatch ∧
    sMatch.remote_input = sMatch.deployment_data ∧
    sMatch.outcome = VerificationOutcome.Matched :=
  ⟨by decide, by decide,
    C1_matched_on_equal_input cfg0 Wmatch sMatch (by decide) (by decide)⟩

/-- C2: on a mismatching run, the verifier re-splits both byte
sequences and reports a prelude mismatch exactly when the two extracted
preludes differ, and a body mismatch exactly when the preludes are equal
but the extracted payloads differ. -/
theorem C2_mismatch_localization (cfg : VerifyConfig) (w : World) (s : VerifySuccess)
    (h : (verify cfg w).result = Except.ok s)
    (hne : s.remote_input ≠ s.deployment_data) :
    ((∃ p q, s.outcome = VerificationOutcome.MismatchedPrelude p q) ↔
      extract_program_evm_deployment_prelude s.remote_input ≠
        extract_program_evm_deployment_prelude s.deployment_data) ∧
    (s.outcome = VerificationOutcome.MismatchedBody ↔
      (extract_program_evm_deployment_prelude s.remote_input =
          extract_program_evm_deployment_prelude s.deployment_data ∧
        extract_compressed_wasm s.remote_input ≠ extract_compressed_wasm s.deployment_data)) := by
  obtain ⟨hash, tx, wf, ph, ic, _, _, _, _, _, _, hs, _⟩ := verify_ok_inv cfg w s h
  subst hs
  simp only at hne ⊢
  unfold compareStage
  rw [if_neg (fun hc => hne hc.symm)]
  simp only
  by_cases hpre : extract_program_evm_deployment_prelude tx.input ≠
      extract_program_evm_deployment_prelude (program_deployment_calldata ic)
  · rw [if_pos hpre]
    refine ⟨⟨fun _ => hpre, fun _ => ⟨_, _, rfl⟩⟩, ⟨fun hc => ?_, fun hc => absurd hc.1 hpre⟩⟩
    exact VerificationOutcome.noConfusion hc
  · rw [if_neg hpre]
    have hpeq := not_not.mp hpre
    refine ⟨⟨fun hc => ?_, fun hc => absurd hpeq hc⟩, ⟨fun _ => ⟨hpeq, fun hpay => ?_⟩,
      fun _ => rfl⟩⟩
    · obtain ⟨p, q, hc⟩ := hc
      exact VerificationOutcome.noConfusion hc
    · exact hne (eq_of_take_drop_eq PRELUDE_LEN _ _ hpeq hpay)

/-- A collaborator world whose remote transaction input shares the local
reconstruction's prelude but not its payload. -/
def Wbody : World :=
  ⟨fun _ => Except.ok (), fun _ => Except.ok (some ⟨program_deployment_calldata [9, 9, 9]⟩),
    Except.ok true, fun _ => Except.ok (), fun _ => Except.ok "out.wasm",
    fun _ _ => Except.ok (List.replicate 32 0), fun _ _ => Except.ok [1, 2, 3]⟩

/-- The success value of the body-mismatch run of `cfg0` against `Wbody`. -/
def sBody : VerifySuccess :=
  ⟨program_deployment_calldata [1, 2, 3], program_deployment_calldata [9, 9, 9],
    VerificationOutcome.MismatchedBody⟩

/-- Witness for C2 on a concrete body-mismatch run. -/
theorem C2_mismatch_localization_witness :
    (verify cfg0 Wbody).result = Except.ok sBody ∧
    sBody.remote_input ≠ sBody.deployment_data ∧
    (((∃ p q, sBody.outcome = VerificationOutcome.MismatchedPrelude p q) ↔
      extract_program_evm_deployment_prelude sBody.remote_input ≠
        extract_program_evm_deployment_prelude sBody.deployment_data) ∧
    (sBody.outcome = VerificationOutcome.MismatchedBody ↔
      (extract_program_evm_deployment_prelude sBody.remote_input =
          extract_program_evm_deployment_prelude sBody.deployment_data ∧
        extract_compressed_wasm sBody.remote_input ≠
          extract_compressed_wasm sBody.deployment_data))) :=
  ⟨by decide, by decide,
    C2_mismatch_localization cfg0 Wbody sBody (by decide) (by decide)⟩

/-- C3: extraction is a left inverse of construction: the deployment
calldata built from any payload splits back into exactly the prelude of
the payload's length and the payload itself. -/
theorem C3_round_trip (payload : List Nat) :
    extract_program_evm_deployment_prelude (program_deployment_calldata payload) =
      preludeBytes payload.length ∧
    extract_compressed_wasm (program_deployment_calldata payload) = payload := by
  unfold extract_program_evm_deployment_prelude extract_compressed_wasm
    program_deployment_calldata
  rw [← preludeBytes_length payload.length]
  exact ⟨List.take_left _ _, List.drop_left _ _⟩

/-- Replace only the remote-transaction lookup of a collaborator world,
leaving every other collaborator unchanged. -/
def World.withGetTransaction (w : World)
    (g : List Nat → Except String (Option Tx)) : World :=
  ⟨w.provider, g, w.cargoClean, w.checkRun, w.buildDylib, w.hashFiles, w.compressWasm⟩

/-- C4: the locally reconstructed deployment calldata is independent of
the fetched remote transaction: two runs over the same configuration and
collaborators that differ only in the remote-transaction lookup
construct identical local calldata bytes. -/
theorem C4_local_independent_of_remote (cfg : VerifyConfig) (w : World)
    (g₁ g₂ : List Nat → Except String (Option Tx)) (s₁ s₂ : VerifySuccess)
    (h₁ : (verify cfg (w.withGetTransaction g₁)).result = Except.ok s₁)
    (h₂ : (verify cfg (w.withGetTransaction g₂)).result = Except.ok s₂) :
    s₁.deployment_data = s₂.deployment_data := by
  obtain ⟨hash₁, tx₁, wf₁, ph₁, ic₁, _, _, _, hb₁, hh₁, hz₁, hs₁, _⟩ := verify_ok_inv _ _ _ h₁
  obtain ⟨hash₂, tx₂, wf₂, ph₂, ic₂, _, _, _, hb₂, hh₂, hz₂, hs₂, _⟩ := verify_ok_inv _ _ _ h₂
  subst hs₁ hs₂
  simp only [World.withGetTransaction] at hb₁ hh₁ hz₁ hb₂ hh₂ hz₂
  rw [hb₁] at hb₂
  injection hb₂ with hwf
  subst hwf
  rw [hh₁] at hh₂
  injection hh₂ with hph
  subst hph
  rw [hz₁] at hz₂
  injection hz₂ with hic
  subst hic
  rfl

/-- A remote lookup returning input `[1]`. -/
def gA : List Nat → Except String (Option Tx) := fun _ => Except.ok (some ⟨[1]⟩)

/-- A remote lookup returning input `[2]`. -/
def gB : List Nat → Except String (Option Tx) := fun _ => Except.ok (some ⟨[2]⟩)

/-- The success value of the run of `cfg0` with remote lookup `gA`. -/
def sA : VerifySuccess :=
  ⟨program_deployment_calldata [1, 2, 3], [1],
    VerificationOutcome.MismatchedPrelude [1] (preludeBytes 3)⟩

/-- The success value of the run of `cfg0` with remote lookup `gB`. -/
def sB : VerifySuccess :=
  ⟨program_deployment_calldata [1, 2, 3], [2],
    VerificationOutcome.MismatchedPrelude [2] (preludeBytes 3)⟩

/-- Witness for C4 on two concrete runs differing only in the remote
transaction. -/
theorem C4_local_independent_of_remote_witness :
    (verify cfg0 (W0.withGetTransaction gA)).result = Except.ok sA ∧
    (verify cfg0 (W0.withGetTransaction gB)).result = Except.ok sB ∧
    sA.deployment_data = sB.deployment_data :=
  ⟨by decide, by decide,
    C4_local_independent_of_remote cfg0 W0 gA gB sA sB (by decide) (by decide)⟩

/-- Whether an effect is the project-hash stage marker is `isHash`; this
is the calldata-construction stage marker. -/
def Effect.isConstruct : Effect → Bool
  | Effect.constructCalldata => true
  | _ => false

/-- Whether an effect is the comparison stage marker. -/
def Effect.isCompare : Effect → Bool
  | Effect.compareCalldata => true
  | _ => false

/-- Whether a run completed with an outcome (its result is `Ok`). -/
def VerifyRun.completed (r : VerifyRun) : Bool :=
  match r.result with
  | Except.ok _ => true
  | Except.error _ => false

/-- Counterexample to C5: on a concrete completed run the claimed stage
order (hash, then compile, then compress, then construct, then fetch,
then compare) is violated: the fetch precedes the hash stage and the
compile precedes the hash stage. -/
theorem C5_counterexample_stage_order :
    (verify cfg0 W0).completed = true ∧
    ¬(((verify cfg0 W0).trace.findIdx Effect.isHash <
          (verify cfg0 W0).trace.findIdx Effect.isCompile) ∧
      ((verify cfg0 W0).trace.findIdx Effect.isCompile <
          (verify cfg0 W0).trace.findIdx Effect.isCompress) ∧
      ((verify cfg0 W0).trace.findIdx Effect.isCompress <
          (verify cfg0 W0).trace.findIdx Effect.isConstruct) ∧
      ((verify cfg0 W0).trace.findIdx Effect.isConstruct <
          (verify cfg0 W0).trace.findIdx Effect.isFetch) ∧
      ((verify cfg0 W0).trace.findIdx Effect.isFetch <
          (verify cfg0 W0).trace.findIdx Effect.isCompare)) := by
  decide

/-- C5 (amended): every completed verification run executes its stages
in the order fetch, then clean, then check, then compile, then hash,
then compress, then construct, then compare, each consuming results of
earlier stages. -/
theorem C5_stage_order_amended (cfg : VerifyConfig) (w : World) (s : VerifySuccess)
    (h : (verify cfg w).result = Except.ok s) :
    ∃ hash wasm_file project_hash,
      (verify cfg w).trace =
        [Effect.newProvider cfg.common_cfg.endpoint, Effect.rpcGetTransaction hash,
          Effect.runCargoClean, Effect.runCheck ⟨cfg.common_cfg, none, none⟩,
          Effect.buildDylibCall ⟨OptLevel.default, cfg.common_cfg.rust_stable⟩,
          Effect.hashFilesCall cfg.common_cfg.source_files_for_project_hash
            ⟨OptLevel.default, cfg.common_cfg.rust_stable⟩,
          Effect.compressWasmCall wasm_file project_hash, Effect.constructCalldata,
          Effect.compareCalldata] := by
  obtain ⟨hash, tx, wf, ph, ic, _, _, _, _, _, _, _, htr⟩ := verify_ok_inv cfg w s h
  exact ⟨hash, wf, ph, htr⟩

/-- The success value of the run of `cfg0` against `W0`. -/
def s0 : VerifySuccess :=
  ⟨program_deployment_calldata [1, 2, 3], [9, 9],
    VerificationOutcome.MismatchedPrelude [9, 9] (preludeBytes 3)⟩

/-- Witness for the amended C5 on a concrete completed run. -/
theorem C5_stage_order_amended_witness :
    (verify cfg0 W0).result = Except.ok s0 ∧
    ∃ hash wasm_file project_hash,
      (verify cfg0 W0).trace =
        [Effect.newProvider cfg0.common_cfg.endpoint, Effect.rpcGetTransaction hash,
          Effect.runCargoClean, Effect.runCheck ⟨cfg0.common_cfg, none, none⟩,
          Effect.buildDylibCall ⟨OptLevel.default, cfg0.common_cfg.rust_stable⟩,
          Effect.hashFilesCall cfg0.common_cfg.source_files_for_project_hash
            ⟨OptLevel.default, cfg0.common_cfg.rust_stable⟩,
          Effect.compressWasmCall wasm_file project_hash, Effect.constructCalldata,
          Effect.compareCalldata] :=
  ⟨by decide, C5_stage_order_amended cfg0 W0 s0 (by decide)⟩

/-- Counterexample to C6: a concrete completed run performs, besides the
network read, the `cargo clean` subprocess invocation, which removes the
build directory — a write, so the network read is not the run's only
side effect. -/
theorem C6_counterexample_writes :
    (verify cfg0 W0).completed = true ∧
    Effect.runCargoClean ∈ (verify cfg0 W0).trace ∧
    Effect.isWrite Effect.runCargoClean = true := by
  decide

/-- C6 (amended): a verification run performs no retries (no external
call appears twice in its trace) and performs the remote-transaction
network read at most once — exactly once when the run completes — but
its local rebuild additionally invokes `cargo clean` and the compiler,
whose writes are confined to build artifacts. -/
theorem C6_effects_amended (cfg : VerifyConfig) (w : World) :
    (verify cfg w).trace.Nodup ∧
    (verify cfg w).trace.countP Effect.isFetch ≤ 1 ∧
    ((verify cfg w).completed = true →
      (verify cfg w).trace.countP Effect.isFetch = 1) ∧
    (∀ e ∈ (verify cfg w).trace, e.isWrite = true →
      e = Effect.runCargoClean ∨ e.isCompile = true) := by
  unfold verify
  repeat'
    first
      | split
      | (all_goals try simp [VerifyRun.completed, Effect.isFetch, Effect.isWrite,
          Effect.isCompile, List.countP_cons])

/-- Witness for the amended C6 on a concrete run. -/
theorem C6_effects_amended_witness :
    (verify cfg0 W0).trace.Nodup ∧
    (verify cfg0 W0).trace.countP Effect.isFetch ≤ 1 ∧
    ((verify cfg0 W0).completed = true →
      (verify cfg0 W0).trace.countP Effect.isFetch = 1) ∧
    (∀ e ∈ (verify cfg0 W0).trace, e.isWrite = true →
      e = Effect.runCargoClean ∨ e.isCompile = true) :=
  C6_effects_amended cfg0 W0

/-- C7: when the supplied deployment transaction hash decodes to a byte
string whose length is not 32, `verify` fails with the invalid-hash
error before performing the RPC query or any local-build step: its trace
is the provider construction alone, with no fetch, no write and no
compile. -/
theorem C7_invalid_hash_rejected (cfg : VerifyConfig) (w : World) (hash : List Nat)
    (hp : w.provider cfg.common_cfg.endpoint = Except.ok ())
    (hd : decode0x cfg.deployment_tx = some hash)
    (hlen : hash.length ≠ 32) :
    verify cfg w = ⟨[Effect.newProvider cfg.common_cfg.endpoint],
      Except.error VerifyError.invalidHash⟩ ∧
    ∀ e ∈ (verify cfg w).trace,
      e.isFetch = false ∧ e.isWrite = false ∧ e.isCompile = false := by
  have hrun : verify cfg w = ⟨[Effect.newProvider cfg.common_cfg.endpoint],
      Except.error VerifyError.invalidHash⟩ := by
    unfold verify
    simp only [hp, hd]
    rw [if_pos hlen]
  refine ⟨hrun, ?_⟩
  rw [hrun]
  intro e he
  simp only [List.mem_singleton] at he
  subst he
  exact ⟨rfl, rfl, rfl⟩

/-- A configuration whose deployment transaction hash hex-decodes to
only four bytes. -/
def cfgShort : VerifyConfig :=
  ⟨⟨"http://localhost:8547", false, false, ["src/main.rs"]⟩, "0xdeadbeef"⟩

/-- Witness for C7 on a concrete short hash. -/
theorem C7_invalid_hash_rejected_witness :
    verify cfgShort W0 = ⟨[Effect.newProvider cfgShort.common_cfg.endpoint],
      Except.error VerifyError.invalidHash⟩ ∧
    ∀ e ∈ (verify cfgShort W0).trace,
      e.isFetch = false ∧ e.isWrite = false ∧ e.isCompile = false :=
  C7_invalid_hash_rejected cfgShort W0 [0xde, 0xad, 0xbe, 0xef]
    (by decide) (by decide) (by decide)

/-- C8: the fetch stage fails with the RPC error on transport failure
and with the not-found error when no transaction exists at the hash; in
both cases the run aborts right after the fetch with no outcome. -/
theorem C8_fetch_failures_abort (cfg : VerifyConfig) (w : World) (hash : List Nat)
    (hp : w.provider cfg.common_cfg.endpoint = Except.ok ())
    (hd : decode0x cfg.deployment_tx = some hash)
    (hlen : hash.length = 32) :
    (∀ e, w.getTransaction hash = Except.error e →
      verify cfg w = ⟨[Effect.newProvider cfg.common_cfg.endpoint,
        Effect.rpcGetTransaction hash], Except.error (VerifyError.rpcError e)⟩) ∧
    (w.getTransaction hash = Except.ok none →
      verify cfg w = ⟨[Effect.newProvider cfg.common_cfg.endpoint,
        Effect.rpcGetTransaction hash], Except.error VerifyError.notFound⟩) := by
  constructor
  · intro e ht
    unfold verify
    simp only [hp, hd]
    rw [if_neg (fun hcon => hcon hlen)]
    simp only [ht]
  · intro ht
    unfold verify
    simp only [hp, hd]
    rw [if_neg (fun hcon => hcon hlen)]
    simp only [ht]

/-- The 32-byte hash that `cfg0`'s transaction hash string decodes to. -/
def h0 : List Nat := List.replicate 31 0 ++ [1]

/-- A collaborator world whose remote lookup reports a transport error. -/
def Werr : World :=
  ⟨fun _ => Except.ok (), fun _ => Except.error "transport", Except.ok true,
    fun _ => Except.ok (), fun _ => Except.ok "out.wasm",
    fun _ _ => Except.ok (List.replicate 32 0), fun _ _ => Except.ok [1, 2, 3]⟩

/-- A collaborator world with no transaction at any hash. -/
def Wnone : World :=
  ⟨fun _ => Except.ok (), fun _ => Except.ok none, Except.ok true,
    fun _ => Except.ok (), fun _ => Except.ok "out.wasm",
    fun _ _ => Except.ok (List.replicate 32 0), fun _ _ => Except.ok [1, 2, 3]⟩

/-- Witness for C8 on two concrete failing fetches. -/
theorem C8_fetch_failures_abort_witness :
    verify cfg0 Werr = ⟨[Effect.newProvider cfg0.common_cfg.endpoint,
      Effect.rpcGetTransaction h0], Except.error (VerifyError.rpcError "transport")⟩ ∧
    verify cfg0 Wnone = ⟨[Effect.newProvider cfg0.common_cfg.endpoint,
      Effect.rpcGetTransaction h0], Except.error VerifyError.notFound⟩ :=
  ⟨(C8_fetch_failures_abort cfg0 Werr h0 (by decide) (by decide) (by decide)).1
      "transport" (by decide),
    (C8_fetch_failures_abort cfg0 Wnone h0 (by decide) (by decide) (by decide)).2
      (by decide)⟩

/-- C9: a verification mismatch is not an error at the public
interface: whenever every collaborator succeeds, `verify` returns `Ok`
carrying the comparison outcome, whatever the remote input bytes are. -/
theorem C9_mismatch_not_error (cfg : VerifyConfig) (w : World) (hash : List Nat)
    (tx : Tx) (wasm_file : String) (project_hash init_code : List Nat)
    (hp : w.provider cfg.common_cfg.endpoint = Except.ok ())
    (hd : decode0x cfg.deployment_tx = some hash)
    (hlen : hash.length = 32)
    (ht : w.getTransaction hash = Except.ok (some tx))
    (hc : w.cargoClean = Except.ok true)
    (hk : w.checkRun ⟨cfg.common_cfg, none, none⟩ = Except.ok ())
    (hb : w.buildDylib ⟨OptLevel.default, cfg.common_cfg.rust_stable⟩ = Except.ok wasm_file)
    (hh : w.hashFiles cfg.common_cfg.source_files_for_project_hash
        ⟨OptLevel.default, cfg.common_cfg.rust_stable⟩ = Except.ok project_hash)
    (hz : w.compressWasm wasm_file project_hash = Except.ok init_code) :
    (verify cfg w).result =
      Except.ok ⟨program_deployment_calldata init_code, tx.input,
        compareStage (program_deployment_calldata init_code) tx.input⟩ := by
  unfold verify
  simp only [hp, hd]
  rw [if_neg (fun hcon => hcon hlen)]
  simp only [ht, hc, hk, hb, hh, hz]

/-- Witness for C9 on a concrete mismatching run, whose outcome is a
mismatch and whose result is nonetheless `Ok`. -/
theorem C9_mismatch_not_error_witness :
    (verify cfg0 W0).result =
      Except.ok ⟨program_deployment_calldata [1, 2, 3], Tx.input ⟨[9, 9]⟩,
        compareStage (program_deployment_calldata [1, 2, 3]) (Tx.input ⟨[9, 9]⟩)⟩ :=
  C9_mismatch_not_error cfg0 W0 h0 ⟨[9, 9]⟩ "out.wasm" (List.replicate 32 0) [1, 2, 3]
    (by decide) (by decide) (by decide) (by decide) (by decide) (by decide) (by decide)
    (by decide) (by decide)

/-- C10: every compiler invocation a verification run makes uses
`OptLevel::default()` as its optimization level, taking only the
toolchain channel flag from the user-supplied configuration. -/
theorem C10_build_config_default_opt (cfg : VerifyConfig) (w : World) (bc : BuildConfig)
    (h : Effect.buildDylibCall bc ∈ (verify cfg w).trace) :
    bc = ⟨OptLevel.default, cfg.common_cfg.rust_stable⟩ := by
  unfold verify at h
  repeat'
    first
      | split at h
      | (all_goals try simp_all)

/-- Witness for C10 on a concrete run. -/
theorem C10_build_config_default_opt_witness :
    Effect.buildDylibCall ⟨OptLevel.default, false⟩ ∈ (verify cfg0 W0).trace ∧
    (⟨OptLevel.default, false⟩ : BuildConfig) =
      ⟨OptLevel.default, cfg0.common_cfg.rust_stable⟩ :=
  ⟨by decide,
    C10_build_config_default_opt cfg0 W0 ⟨OptLevel.default, false⟩ (by decide)⟩
